import Mathlib

/-!
Shallow embedding of `src/services/data-api/models/options_predictor.py`
(class `OptionsPredictor`), the options analytics engine specified by the
repository's specification.

Modelling conventions:
* Python/numpy floats are modelled as exact rationals (`ℚ`); the claims under
  study concern branch structure, ordering, rounding and error propagation,
  none of which depend on binary floating-point rounding.
* NaN/infinity propagation through the numpy arithmetic of `calculate_greeks`
  is modelled by the type `FV` (a rational together with `nan`, `+inf`, `-inf`),
  with IEEE-754 propagation rules; Python float comparisons against `nan`
  return `False`, as in CPython.
* Pure-Python float division (which raises `ZeroDivisionError` on a zero
  denominator) is `pydiv`, returning `Except`.  Numpy float64 division (which
  returns `inf`/`nan` instead of raising) is `FV.npdiv`.
* The transcendental primitives `np.log`, `np.sqrt`, `np.exp`,
  `scipy.stats.norm.cdf/pdf` are abstracted as an environment `BSEnv`;
  theorems quantify over the environment (adding the sign facts they need as
  hypotheses), so they hold for the true primitives.  `refBSEnv` is a concrete
  executable instantiation that is faithful on the special values
  (`log` of a non-positive number, `cdf`/`pdf` of `nan`, `sqrt` at `0` and `1`)
  that the concrete evaluations below exercise.
* `datetime.now()`, read internally by `predict_option`, is modelled by an
  explicit state argument `now : ℚ` (days since the epoch of the parsed
  expiration dates); `(expiry - now).days` is the floor of the difference, as
  for Python's `timedelta.days`.
* Python's `round(x, n)` is round-half-to-even: `roundTo`.
-/

/-- Option kind; the source compares `option_type.upper() == 'CALL'` and treats
everything else as a put. -/
inductive OptionType where
  | call
  | put
deriving DecidableEq

/-- Recommendation tier returned by `determine_recommendation`
(the source uses the strings "STRONG BUY", "BUY", "HOLD", "WEAK HOLD", "AVOID"). -/
inductive Recommendation where
  | strongBuy
  | buy
  | hold
  | weakHold
  | avoid
deriving DecidableEq

/-- Risk tier ("LOW"/"MEDIUM"/"HIGH" in the source). -/
inductive Risk where
  | low
  | medium
  | high
deriving DecidableEq

/-- Python exceptions that the embedded code can raise. -/
inductive PyErr where
  /-- `ZeroDivisionError` from pure-Python float division. -/
  | zeroDivErr
  /-- `ValueError("Option has already expired")` raised by `predict_option`. -/
  | expired
deriving DecidableEq

/-- Pure-Python float division: raises `ZeroDivisionError` on a zero denominator. -/
def pydiv (a b : ℚ) : Except PyErr ℚ :=
  if b = 0 then .error .zeroDivErr else .ok (a / b)

/-- A float value as numpy propagates it: a finite rational, an infinity, or NaN. -/
inductive FV where
  | num (q : ℚ)
  | pinf
  | ninf
  | nan
deriving DecidableEq

namespace FV

def neg : FV → FV
  | num q => num (-q)
  | pinf => ninf
  | ninf => pinf
  | nan => nan

def add : FV → FV → FV
  | nan, _ => nan
  | _, nan => nan
  | num a, num b => num (a + b)
  | pinf, ninf => nan
  | ninf, pinf => nan
  | pinf, _ => pinf
  | _, pinf => pinf
  | ninf, _ => ninf
  | _, ninf => ninf

def sub (a b : FV) : FV := a.add b.neg

def mul : FV → FV → FV
  | nan, _ => nan
  | _, nan => nan
  | num a, num b => num (a * b)
  | num a, pinf => if 0 < a then pinf else if a < 0 then ninf else nan
  | pinf, num a => if 0 < a then pinf else if a < 0 then ninf else nan
  | num a, ninf => if 0 < a then ninf else if a < 0 then pinf else nan
  | ninf, num a => if 0 < a then ninf else if a < 0 then pinf else nan
  | pinf, pinf => pinf
  | ninf, ninf => pinf
  | pinf, ninf => ninf
  | ninf, pinf => ninf

/-- numpy float64 division: division by zero yields an infinity or NaN
(with a runtime warning), never an exception. -/
def npdiv : FV → FV → FV
  | nan, _ => nan
  | _, nan => nan
  | num a, num b =>
      if b = 0 then (if 0 < a then pinf else if a < 0 then ninf else nan)
      else num (a / b)
  | num _, pinf => num 0
  | num _, ninf => num 0
  | pinf, num b => if 0 ≤ b then pinf else ninf
  | ninf, num b => if 0 ≤ b then ninf else pinf
  | pinf, _ => nan
  | ninf, _ => nan

def fabs : FV → FV
  | num q => num |q|
  | pinf => pinf
  | ninf => pinf
  | nan => nan

/-- Python comparison `x > c`: comparisons against NaN are `False`. -/
def gtQ : FV → ℚ → Bool
  | num a, c => a > c
  | pinf, _ => true
  | ninf, _ => false
  | nan, _ => false

end FV

/-- Round half to even, the rounding used by Python's builtin `round`. -/
def roundHalfEven (q : ℚ) : ℤ :=
  if q - ⌊q⌋ < 1/2 then ⌊q⌋
  else if 1/2 < q - ⌊q⌋ then ⌊q⌋ + 1
  else if ⌊q⌋ % 2 = 0 then ⌊q⌋ else ⌊q⌋ + 1

/-- Python's `round(x, n)` on exact rationals. -/
def roundTo (n : ℕ) (q : ℚ) : ℚ := (roundHalfEven (q * 10 ^ n) : ℚ) / 10 ^ n

/-- Python's `round(x, n)` on a possibly non-finite float:
`round` of `nan`/`inf` returns `nan`/`inf`. -/
def FV.roundF (n : ℕ) : FV → FV
  | .num q => .num (roundTo n q)
  | v => v

/-- Abstraction of the transcendental primitives the source imports
(`np.log`, `np.sqrt`, `np.exp`, `scipy.stats.norm.cdf`, `norm.pdf`). -/
structure BSEnv where
  log : FV → FV
  sqrt : ℚ → ℚ
  exp : ℚ → ℚ
  cdf : FV → FV
  pdf : FV → FV

/-- Largest `j ≤ k` with `j * j ≤ n` (structurally recursive integer sqrt). -/
def isqrtAux (n : ℕ) : ℕ → ℕ
  | 0 => 0
  | k + 1 => if (k + 1) * (k + 1) ≤ n then k + 1 else isqrtAux n k

def isqrt (n : ℕ) : ℕ := isqrtAux n n

/-- Executable square-root stand-in: `⌊√(num·den)⌋ / den` for positive input,
`0` otherwise.  Exact at `0` and `1`, the only arguments at which the concrete
evaluations below apply it (and `np.sqrt 0 = 0`, `np.sqrt 1 = 1`). -/
def ratSqrt (q : ℚ) : ℚ :=
  if q ≤ 0 then 0 else (isqrt (q.num.toNat * q.den) : ℚ) / (q.den : ℚ)

/-- Reference instantiation of the primitives.  It is faithful to
numpy/scipy on every value the concrete theorems below evaluate it at:
`log` of a negative number is NaN and `log 0 = -inf` (numpy warns, does not
raise), `cdf`/`pdf` of NaN is NaN, `cdf (±inf)` is `1`/`0`, `pdf (±inf)` is
`0`, and `sqrt` at `0` and `1`.  On positive finite arguments `log`, `exp`,
`cdf`, `pdf` return irrational reals; the rational stand-ins used here are
never relied upon by any theorem. -/
def refBSEnv : BSEnv where
  log := fun v =>
    match v with
    | .num q => if q < 0 then .nan else if q = 0 then .ninf else .num 0
    | .pinf => .pinf
    | .ninf => .nan
    | .nan => .nan
  sqrt := ratSqrt
  exp := fun _ => 1
  cdf := fun v =>
    match v with
    | .num _ => .num (1/2)
    | .pinf => .num 1
    | .ninf => .num 0
    | .nan => .nan
  pdf := fun v =>
    match v with
    | .num _ => .num 0
    | .pinf => .num 0
    | .ninf => .num 0
    | .nan => .nan

/-- The five Greeks returned by `calculate_greeks`
(`{'delta': ..., 'gamma': ..., 'theta': ..., 'vega': ..., 'rho': ...}`). -/
structure Greeks where
  delta : FV
  gamma : FV
  theta : FV
  vega : FV
  rho : FV
deriving DecidableEq

/-- The all-zero Greeks record `{'delta': 0, 'gamma': 0, 'theta': 0, 'vega': 0, 'rho': 0}`. -/
def zeroGreeks : Greeks := ⟨.num 0, .num 0, .num 0, .num 0, .num 0⟩

/-- The body of the `try:` block of `OptionsPredictor.calculate_greeks`
(source lines 71-109), including the early `return` on `T ≤ 0`.  The only
raising operation is the pure-Python division `spot_price / strike_price`;
every other division is numpy float64 division (`FV.npdiv`). -/
def greeksTry (env : BSEnv) (spot_price strike_price time_to_expiry volatility
    risk_free_rate : ℚ) (option_type : OptionType) : Except PyErr Greeks := do
  let T := time_to_expiry / 365
  if T ≤ 0 then
    return zeroGreeks
  let sOverK ← pydiv spot_price strike_price
  let sqrtT := env.sqrt T
  let d1 := FV.npdiv
    ((env.log (FV.num sOverK)).add
      (FV.num ((risk_free_rate + 0.5 * volatility ^ 2) * T)))
    (FV.num (volatility * sqrtT))
  let d2 := d1.sub (FV.num (volatility * sqrtT))
  let deltaTheta :=
    match option_type with
    | .call =>
        (env.cdf d1,
         (FV.npdiv (((FV.num spot_price).mul (env.pdf d1)).mul (FV.num volatility)).neg
             (FV.num (2 * sqrtT))).sub
           ((FV.num (risk_free_rate * strike_price *
               env.exp (-(risk_free_rate * T)))).mul (env.cdf d2)))
    | .put =>
        ((env.cdf d1.neg).neg,
         (FV.npdiv (((FV.num spot_price).mul (env.pdf d1)).mul (FV.num volatility)).neg
             (FV.num (2 * sqrtT))).add
           ((FV.num (risk_free_rate * strike_price *
               env.exp (-(risk_free_rate * T)))).mul (env.cdf d2.neg)))
  let gamma := FV.npdiv (env.pdf d1) (FV.num (spot_price * volatility * sqrtT))
  let vega := FV.npdiv (((FV.num spot_price).mul (env.pdf d1)).mul (FV.num sqrtT))
    (FV.num 100)
  let rho :=
    match option_type with
    | .call =>
        FV.npdiv ((FV.num (strike_price * T *
          env.exp (-(risk_free_rate * T)))).mul (env.cdf d2)) (FV.num 100)
    | .put =>
        (FV.npdiv ((FV.num (strike_price * T *
          env.exp (-(risk_free_rate * T)))).mul (env.cdf d2.neg)) (FV.num 100)).neg
  return {
    delta := deltaTheta.1.roundF 4
    gamma := gamma.roundF 6
    theta := (FV.npdiv deltaTheta.2 (FV.num 365)).roundF 4
    vega := vega.roundF 4
    rho := rho.roundF 4 }

/-- `OptionsPredictor.calculate_greeks`: the `try/except` wrapper returns the
all-zero record whenever the body raises. -/
def calculate_greeks (env : BSEnv) (spot_price strike_price time_to_expiry
    volatility risk_free_rate : ℚ) (option_type : OptionType) : Greeks :=
  match greeksTry env spot_price strike_price time_to_expiry volatility
      risk_free_rate option_type with
  | .ok g => g
  | .error _ => zeroGreeks

/-- The pair of lists returned by `calculate_multiple_targets`:
`([target1, target2, target3], [confidence1, confidence2, confidence3])`. -/
structure TargetSet where
  target1 : ℚ
  target2 : ℚ
  target3 : ℚ
  confidence1 : ℚ
  confidence2 : ℚ
  confidence3 : ℚ
deriving DecidableEq

/-- `days_vol = volatility * np.sqrt(days_to_expiry / 365.0)` (source line 129). -/
def days_vol (sqrt : ℚ → ℚ) (volatility : ℚ) (days_to_expiry : ℤ) : ℚ :=
  volatility * sqrt ((days_to_expiry : ℚ) / 365)

/-- `target1` before the final 2-decimal rounding (source lines 132-133). -/
def target1_raw (sqrt : ℚ → ℚ) (current_price volatility : ℚ) (days_to_expiry : ℤ) : ℚ :=
  current_price + current_price * days_vol sqrt volatility days_to_expiry * 0.5

/-- `target2` before the final 2-decimal rounding (source lines 137-138). -/
def target2_raw (sqrt : ℚ → ℚ) (current_price volatility : ℚ) (days_to_expiry : ℤ) : ℚ :=
  current_price + current_price * days_vol sqrt volatility days_to_expiry * 0.75

/-- `target3` before the final 2-decimal rounding (source lines 142-143). -/
def target3_raw (sqrt : ℚ → ℚ) (current_price volatility : ℚ) (days_to_expiry : ℤ) : ℚ :=
  current_price + current_price * days_vol sqrt volatility days_to_expiry * 1.2

/-- `OptionsPredictor.calculate_multiple_targets` (source lines 115-179).
The only raising operation is the pure-Python division
`moneyness = spot_price / strike_price` (source line 153). -/
def calculate_multiple_targets (sqrt : ℚ → ℚ) (current_price volatility : ℚ)
    (days_to_expiry : ℤ) (option_type : OptionType) (spot_price strike_price : ℚ) :
    Except PyErr TargetSet := do
  let target1 := target1_raw sqrt current_price volatility days_to_expiry
  let target2 := target2_raw sqrt current_price volatility days_to_expiry
  let target3 := target3_raw sqrt current_price volatility days_to_expiry
  let confidence1 := (0.85 : ℚ)
  let confidence2 := (0.65 : ℚ)
  let confidence3 := (0.40 : ℚ)
  let time_factor := min 1 ((days_to_expiry : ℚ) / 30)
  let confidence1 := confidence1 * time_factor
  let confidence2 := confidence2 * time_factor
  let confidence3 := confidence3 * time_factor
  let moneyness ← pydiv spot_price strike_price
  let adjusted :=
    match option_type with
    | .call =>
        if moneyness > 1.05 then (confidence1 * 1.1, confidence2 * 1.05, confidence3)
        else if moneyness < 0.95 then
          (confidence1 * 0.9, confidence2 * 0.85, confidence3 * 0.80)
        else (confidence1, confidence2, confidence3)
    | .put =>
        if moneyness < 0.95 then (confidence1 * 1.1, confidence2 * 1.05, confidence3)
        else if moneyness > 1.05 then
          (confidence1 * 0.9, confidence2 * 0.85, confidence3 * 0.80)
        else (confidence1, confidence2, confidence3)
  let confidence1 := min 0.95 adjusted.1
  let confidence2 := min 0.90 adjusted.2.1
  let confidence3 := min 0.85 adjusted.2.2
  return {
    target1 := roundTo 2 target1
    target2 := roundTo 2 target2
    target3 := roundTo 2 target3
    confidence1 := roundTo 2 confidence1
    confidence2 := roundTo 2 confidence2
    confidence3 := roundTo 2 confidence3 }

/-- The sequential `score` accumulation of `determine_recommendation`
(source lines 193-240): `score` starts at `0` and each factor adds to it in
turn. -/
def score_chain (delta : FV) (days_to_expiry : ℤ) (implied_vol : ℚ)
    (open_interest volume : ℤ) (moneyness : ℚ) : ℤ :=
  let score : ℤ := 0
  let score := if delta.fabs.gtQ 0.7 then score + 2
               else if delta.fabs.gtQ 0.4 then score + 1 else score
  let score := if 30 < days_to_expiry then score + 2
               else if 15 < days_to_expiry then score + 1 else score - 1
  let score := if 1000 < open_interest ∧ 500 < volume then score + 2
               else if 100 < open_interest ∧ 50 < volume then score + 1 else score - 1
  let score := if 0.2 < implied_vol ∧ implied_vol < 0.6 then score + 1
               else if 0.8 < implied_vol then score - 1 else score
  let score := if 0.95 < moneyness ∧ moneyness < 1.05 then score + 2
               else if 0.90 < moneyness ∧ moneyness < 1.10 then score + 1 else score
  score

/-- `OptionsPredictor.determine_recommendation` (source lines 181-285).
`delta` may be NaN (it comes from `calculate_greeks`); Python comparisons
against NaN are `False`, which `FV.gtQ` reproduces. -/
def determine_recommendation (delta : FV) (days_to_expiry : ℤ) (implied_vol : ℚ)
    (open_interest volume : ℤ) (moneyness : ℚ) : Recommendation × ℚ × Risk :=
  let score := score_chain delta days_to_expiry implied_vol open_interest
    volume moneyness
  let recConf : Recommendation × ℚ :=
    if 6 ≤ score then (.strongBuy, 0.85)
    else if 4 ≤ score then (.buy, 0.70)
    else if 2 ≤ score then (.hold, 0.60)
    else if 0 ≤ score then (.weakHold, 0.45)
    else (.avoid, 0.30)
  let risk_score : ℤ := 0
  let risk_score := if days_to_expiry < 7 then risk_score + 2
                    else if days_to_expiry < 15 then risk_score + 1 else risk_score
  let risk_score := if 0.7 < implied_vol then risk_score + 2
                    else if 0.5 < implied_vol then risk_score + 1 else risk_score
  let risk_score := if open_interest < 100 ∨ volume < 50 then risk_score + 2
                    else if open_interest < 500 ∨ volume < 200 then risk_score + 1
                    else risk_score
  let risk_level := if 4 ≤ risk_score then Risk.high
                    else if 2 ≤ risk_score then Risk.medium else Risk.low
  (recConf.1, recConf.2, risk_level)

/-- The `OptionPrediction` dataclass (source lines 16-47).  `expiration_date`
is the parsed date as a day count; `timestamp` is the instant read from
`datetime.now()` (the source stores its ISO string, which determines and is
determined by the instant). -/
structure OptionPrediction where
  symbol : String
  company : String
  market : String
  option_type : OptionType
  entry_price : ℚ
  current_price : ℚ
  strike_price : ℚ
  expiration_date : ℤ
  days_to_expiry : ℤ
  target1 : ℚ
  target1_confidence : ℚ
  target2 : ℚ
  target2_confidence : ℚ
  target3 : ℚ
  target3_confidence : ℚ
  implied_volatility : ℚ
  delta : FV
  gamma : FV
  theta : FV
  vega : FV
  open_interest : ℤ
  volume : ℤ
  recommendation : Recommendation
  overall_confidence : ℚ
  risk_level : Risk
  max_profit_potential : ℚ
  max_loss_potential : ℚ
  breakeven_price : ℚ
  timestamp : ℚ
deriving DecidableEq

/-- The argument tuple of `predict_option` (one option-contract snapshot). -/
structure PredInput where
  symbol : String
  company : String
  market : String
  spot_price : ℚ
  strike_price : ℚ
  option_price : ℚ
  expiration_date : ℤ
  option_type : OptionType
  implied_volatility : ℚ
  open_interest : ℤ
  volume : ℤ
deriving DecidableEq

/-- `days_to_expiry = (expiry_dt - datetime.now()).days` (source line 321):
Python's `timedelta.days` is the floor of the difference in days. -/
def daysToExpiry (expiration_date : ℤ) (now : ℚ) : ℤ :=
  ⌊(expiration_date : ℚ) - now⌋

/-- `OptionsPredictor.predict_option` (source lines 287-405), with the
internally-read `datetime.now()` made an explicit state argument `now`.
The `except` clause of the source logs and re-raises, so errors propagate
unchanged. -/
def predict_option (env : BSEnv) (inp : PredInput) (now : ℚ) :
    Except PyErr OptionPrediction := do
  let days_to_expiry := daysToExpiry inp.expiration_date now
  if days_to_expiry < 0 then
    throw .expired
  let greeks := calculate_greeks env inp.spot_price inp.strike_price
    (days_to_expiry : ℚ) inp.implied_volatility 0.05 inp.option_type
  let ts ← calculate_multiple_targets env.sqrt inp.option_price
    inp.implied_volatility days_to_expiry inp.option_type inp.spot_price
    inp.strike_price
  let moneyness ← pydiv inp.spot_price inp.strike_price
  let recResult := determine_recommendation greeks.delta days_to_expiry
    inp.implied_volatility inp.open_interest inp.volume moneyness
  let mpRaw ← pydiv (ts.target3 - inp.option_price) inp.option_price
  let max_profit_potential := mpRaw * 100
  let max_loss_potential : ℚ := -100
  let breakeven_price :=
    match inp.option_type with
    | .call => inp.strike_price + inp.option_price
    | .put => inp.strike_price - inp.option_price
  return {
    symbol := inp.symbol
    company := inp.company
    market := inp.market
    option_type := inp.option_type
    entry_price := inp.option_price
    current_price := inp.option_price
    strike_price := inp.strike_price
    expiration_date := inp.expiration_date
    days_to_expiry := days_to_expiry
    target1 := ts.target1
    target1_confidence := ts.confidence1
    target2 := ts.target2
    target2_confidence := ts.confidence2
    target3 := ts.target3
    target3_confidence := ts.confidence3
    implied_volatility := inp.implied_volatility
    delta := greeks.delta
    gamma := greeks.gamma
    theta := greeks.theta
    vega := greeks.vega
    open_interest := inp.open_interest
    volume := inp.volume
    recommendation := recResult.1
    overall_confidence := recResult.2.1
    risk_level := recResult.2.2
    max_profit_potential := roundTo 2 max_profit_potential
    max_loss_potential := roundTo 2 max_loss_potential
    breakeven_price := roundTo 2 breakeven_price
    timestamp := now }

/-- `OptionsPredictor.batch_predict_options` (source lines 407-427): applies
`predict_option` to each snapshot, catching any exception and continuing with
the remaining snapshots. -/
def batch_predict_options (env : BSEnv) (options_data : List PredInput)
    (now : ℚ) : List OptionPrediction :=
  match options_data with
  | [] => []
  | inp :: rest =>
      match predict_option env inp now with
      | .ok p => p :: batch_predict_options env rest now
      | .error _ => batch_predict_options env rest now

/-- The `risk_levels = {"LOW": 1, "MEDIUM": 2, "HIGH": 3}` dictionary
(source line 444). -/
def risk_levels : Risk → ℕ
  | .low => 1
  | .medium => 2
  | .high => 3

/-- Stable insertion into a confidence-descending sorted list: the inserted
element goes before every element of not-greater confidence. -/
def insertByConfDesc (p : OptionPrediction) :
    List OptionPrediction → List OptionPrediction
  | [] => [p]
  | q :: rest =>
      if q.overall_confidence ≤ p.overall_confidence then p :: q :: rest
      else q :: insertByConfDesc p rest

/-- Model of Python's stable `list.sort(key=lambda x: x.overall_confidence,
reverse=True)` (source line 455): the unique stable confidence-descending
sort, realised as insertion sort. -/
def sortByConfDesc : List OptionPrediction → List OptionPrediction
  | [] => []
  | p :: rest => insertByConfDesc p (sortByConfDesc rest)

/-- `OptionsPredictor.filter_best_opportunities` (source lines 429-457). -/
def filter_best_opportunities (predictions : List OptionPrediction)
    (min_confidence : ℚ) (max_risk : Risk) : List OptionPrediction :=
  let max_risk_level := risk_levels max_risk
  let filtered := predictions.filter (fun pred =>
    min_confidence ≤ pred.overall_confidence
    && risk_levels pred.risk_level ≤ max_risk_level
    && [Recommendation.buy, Recommendation.strongBuy].contains pred.recommendation)
  sortByConfDesc filtered

/-! ### Properties of the rounding function -/

theorem le_roundHalfEven (q : ℚ) : ⌊q⌋ ≤ roundHalfEven q := by
  unfold roundHalfEven
  split_ifs <;> omega

theorem roundHalfEven_le (q : ℚ) : roundHalfEven q ≤ ⌊q⌋ + 1 := by
  unfold roundHalfEven
  split_ifs <;> omega

theorem roundHalfEven_mono {a b : ℚ} (h : a ≤ b) :
    roundHalfEven a ≤ roundHalfEven b := by
  have hf : ⌊a⌋ ≤ ⌊b⌋ := Int.floor_le_floor h
  rcases eq_or_lt_of_le hf with hfe | hflt
  · unfold roundHalfEven
    rw [← hfe]
    have hab : a - (⌊a⌋ : ℚ) ≤ b - (⌊a⌋ : ℚ) := by linarith
    split_ifs <;> first | omega | linarith
  · calc roundHalfEven a ≤ ⌊a⌋ + 1 := roundHalfEven_le a
      _ ≤ ⌊b⌋ := by omega
      _ ≤ roundHalfEven b := le_roundHalfEven b

theorem roundHalfEven_intCast (m : ℤ) : roundHalfEven (m : ℚ) = m := by
  unfold roundHalfEven
  rw [Int.floor_intCast]
  norm_num

theorem roundTo_mono (n : ℕ) {a b : ℚ} (h : a ≤ b) : roundTo n a ≤ roundTo n b := by
  unfold roundTo
  have h10 : (0 : ℚ) < 10 ^ n := by positivity
  have := roundHalfEven_mono (mul_le_mul_of_nonneg_right h (le_of_lt h10))
  exact div_le_div_of_nonneg_right (by exact_mod_cast this) (le_of_lt h10)

theorem roundTo_le_of_le {n : ℕ} {a c : ℚ} (h : a ≤ c) (hc : roundTo n c = c) :
    roundTo n a ≤ c := hc ▸ roundTo_mono n h

theorem roundTo_ge_of_ge {n : ℕ} {a c : ℚ} (h : c ≤ a) (hc : roundTo n c = c) :
    c ≤ roundTo n a := hc ▸ roundTo_mono n h

theorem roundTo_two_level (q : ℚ) : roundTo 2 q = (roundHalfEven (q * 100) : ℚ) / 100 := by
  unfold roundTo
  norm_num

theorem roundTo_two_nineteenTwenty : roundTo 2 (19/20 : ℚ) = 19/20 := by
  rw [roundTo_two_level]
  have : ((19 : ℚ)/20) * 100 = ((95 : ℤ) : ℚ) := by norm_num
  rw [this, roundHalfEven_intCast]
  norm_num

theorem roundTo_two_pos_of_ge {q : ℚ} (h : (1/100 : ℚ) ≤ q) : 0 < roundTo 2 q := by
  rw [roundTo_two_level]
  have h1 : (1 : ℚ) ≤ q * 100 := by linarith
  have h2 : (1 : ℤ) ≤ ⌊q * 100⌋ := by
    have := Int.le_floor.mpr (by exact_mod_cast h1 : ((1 : ℤ) : ℚ) ≤ q * 100)
    omega
  have h3 : (1 : ℤ) ≤ roundHalfEven (q * 100) := le_trans h2 (le_roundHalfEven _)
  have : (1 : ℚ) ≤ (roundHalfEven (q * 100) : ℚ) := by exact_mod_cast h3
  positivity

theorem roundTo_two_neg100 : roundTo 2 (-100 : ℚ) = -100 := by
  rw [roundTo_two_level]
  have : ((-100 : ℚ)) * 100 = ((-10000 : ℤ) : ℚ) := by norm_num
  rw [this, roundHalfEven_intCast]
  norm_num

/-! ### C5: all-zero Greeks for non-positive time to expiry -/

/-- C5: for every spot price, strike price, volatility, risk-free rate and
both kinds CALL and PUT, `calculate_greeks` called with `time_to_expiry ≤ 0`
returns `delta = gamma = theta = vega = rho = 0`, as a defined degenerate
result rather than an error. -/
theorem calculate_greeks_zero_on_expiry (env : BSEnv)
    (spot_price strike_price time_to_expiry volatility risk_free_rate : ℚ)
    (option_type : OptionType) (h : time_to_expiry ≤ 0) :
    calculate_greeks env spot_price strike_price time_to_expiry volatility
      risk_free_rate option_type = zeroGreeks := by
  have hT : time_to_expiry / 365 ≤ 0 := by
    apply div_nonpos_of_nonpos_of_nonneg h
    norm_num
  simp [calculate_greeks, greeksTry, if_pos hT, bind, Except.bind, pure,
    Except.pure]

/-- Witness for C5 at a concrete input (`T = 0`, CALL). -/
theorem calculate_greeks_zero_on_expiry_witness :
    calculate_greeks refBSEnv 100 100 0 (1/5) (1/20) OptionType.call = zeroGreeks :=
  calculate_greeks_zero_on_expiry refBSEnv 100 100 0 (1/5) (1/20)
    OptionType.call (by norm_num)

/-! ### C10: `calculate_greeks` never propagates an exception -/

/-- C10 (amended): `calculate_greeks` never propagates an exception: whenever
the body of its `try:` block raises, the all-zero record is returned in its
place; and the body can only raise when `strike_price = 0` (the pure-Python
division `spot_price / strike_price`) — for every non-zero strike the body
completes without an exception, whatever the other inputs. -/
theorem calculate_greeks_never_raises (env : BSEnv)
    (spot_price strike_price time_to_expiry volatility risk_free_rate : ℚ)
    (option_type : OptionType) :
    ((greeksTry env spot_price strike_price time_to_expiry volatility
        risk_free_rate option_type).isOk = false →
      calculate_greeks env spot_price strike_price time_to_expiry volatility
        risk_free_rate option_type = zeroGreeks)
    ∧ (strike_price ≠ 0 →
      (greeksTry env spot_price strike_price time_to_expiry volatility
        risk_free_rate option_type).isOk = true) := by
  constructor
  · intro hfail
    cases hg : greeksTry env spot_price strike_price time_to_expiry volatility
        risk_free_rate option_type with
    | ok g => rw [hg] at hfail; simp [Except.isOk, Except.toBool] at hfail
    | error e => simp [calculate_greeks, hg]
  · intro hk
    simp only [greeksTry, pydiv, if_neg hk, bind, Except.bind, pure, Except.pure]
    split
    · simp [Except.isOk, Except.toBool]
    · simp [Except.isOk, Except.toBool]

/-- Witness for C10's theorem at a concrete input with a non-zero strike. -/
theorem calculate_greeks_never_raises_witness :
    (greeksTry refBSEnv 100 90 37 (7/20) (1/20) OptionType.call).isOk = true :=
  (calculate_greeks_never_raises refBSEnv 100 90 37 (7/20) (1/20)
    OptionType.call).2 (by norm_num)

/-- Counterexample to C10 as stated: for a negative spot price (with non-zero
strike and positive time), `np.log` returns NaN without raising, so
`calculate_greeks` returns a NaN-valued record, not the all-zero record the
claim promises for that input class. -/
theorem calculate_greeks_nan_not_zero :
    calculate_greeks refBSEnv (-1) 1 365 (3/10) (1/20) OptionType.call ≠
      zeroGreeks := by
  intro h
  have hd := congrArg Greeks.delta h
  norm_num [calculate_greeks, greeksTry, pydiv, refBSEnv, zeroGreeks, bind,
    Except.bind, pure, Except.pure, FV.add, FV.npdiv, FV.roundF, FV.sub,
    FV.neg, FV.mul] at hd
  exact FV.noConfusion hd

/-! ### C4: the recommendation table -/

/-- Momentum factor of the score (source lines 196-202). -/
def momentum_score (delta : FV) : ℤ :=
  if delta.fabs.gtQ 0.7 then 2 else if delta.fabs.gtQ 0.4 then 1 else 0

/-- Time-cushion factor of the score (source lines 204-213). -/
def time_score (days_to_expiry : ℤ) : ℤ :=
  if 30 < days_to_expiry then 2 else if 15 < days_to_expiry then 1 else -1

/-- Liquidity factor of the score (source lines 215-224). -/
def liquidity_score (open_interest volume : ℤ) : ℤ :=
  if 1000 < open_interest ∧ 500 < volume then 2
  else if 100 < open_interest ∧ 50 < volume then 1 else -1

/-- Implied-volatility factor of the score (source lines 226-232). -/
def vol_score (implied_vol : ℚ) : ℤ :=
  if 0.2 < implied_vol ∧ implied_vol < 0.6 then 1
  else if 0.8 < implied_vol then -1 else 0

/-- Moneyness factor of the score (source lines 234-240). -/
def moneyness_score (moneyness : ℚ) : ℤ :=
  if 0.95 < moneyness ∧ moneyness < 1.05 then 2
  else if 0.90 < moneyness ∧ moneyness < 1.10 then 1 else 0

/-- The additive factor score of §4.3 of the specification. -/
def total_score (delta : FV) (days_to_expiry : ℤ) (implied_vol : ℚ)
    (open_interest volume : ℤ) (moneyness : ℚ) : ℤ :=
  momentum_score delta + time_score days_to_expiry
    + liquidity_score open_interest volume + vol_score implied_vol
    + moneyness_score moneyness

/-- The score-to-(recommendation, confidence) table of the specification,
thresholds tested highest first. -/
def score_table (score : ℤ) : Recommendation × ℚ :=
  if 6 ≤ score then (.strongBuy, 0.85)
  else if 4 ≤ score then (.buy, 0.70)
  else if 2 ≤ score then (.hold, 0.60)
  else if 0 ≤ score then (.weakHold, 0.45)
  else (.avoid, 0.30)

set_option maxHeartbeats 1000000 in
/-- The sequential score accumulation equals the sum of the five independent
factor contributions, for arbitrary branch conditions. -/
theorem score_chain_decomp (b1 b2 : Bool) (p1 p2 q1 q2 r1 r2 s1 s2 : Prop)
    [Decidable p1] [Decidable p2] [Decidable q1] [Decidable q2] [Decidable r1]
    [Decidable r2] [Decidable s1] [Decidable s2] :
    (let score : ℤ := 0
     let score := if b1 then score + 2 else if b2 then score + 1 else score
     let score := if p1 then score + 2 else if p2 then score + 1 else score - 1
     let score := if q1 then score + 2 else if q2 then score + 1 else score - 1
     let score := if r1 then score + 1 else if r2 then score - 1 else score
     let score := if s1 then score + 2 else if s2 then score + 1 else score
     score)
    = ((if b1 then 2 else if b2 then 1 else 0) : ℤ)
      + (if p1 then 2 else if p2 then 1 else -1)
      + (if q1 then 2 else if q2 then 1 else -1)
      + (if r1 then 1 else if r2 then -1 else 0)
      + (if s1 then 2 else if s2 then 1 else 0) := by
  split_ifs <;> norm_num

/-- C4: `determine_recommendation` is a total function of its inputs, and the
(recommendation, confidence) pair it returns is exactly `score_table` applied
to the additive factor score, with thresholds tested highest first. -/
theorem determine_recommendation_matches_table (delta : FV)
    (days_to_expiry : ℤ) (implied_vol : ℚ) (open_interest volume : ℤ)
    (moneyness : ℚ) :
    ((determine_recommendation delta days_to_expiry implied_vol open_interest
        volume moneyness).1,
     (determine_recommendation delta days_to_expiry implied_vol open_interest
        volume moneyness).2.1)
      = score_table (total_score delta days_to_expiry implied_vol
          open_interest volume moneyness) := by
  have hs : score_chain delta days_to_expiry implied_vol open_interest volume
      moneyness = total_score delta days_to_expiry implied_vol open_interest
      volume moneyness :=
    score_chain_decomp (delta.fabs.gtQ 0.7) (delta.fabs.gtQ 0.4)
      (30 < days_to_expiry) (15 < days_to_expiry)
      (1000 < open_interest ∧ 500 < volume) (100 < open_interest ∧ 50 < volume)
      (0.2 < implied_vol ∧ implied_vol < 0.6) (0.8 < implied_vol)
      (0.95 < moneyness ∧ moneyness < 1.05) (0.90 < moneyness ∧ moneyness < 1.10)
  simp only [determine_recommendation, hs, score_table]

/-! ### C3: confidence ordering and range -/

theorem roundTo_two_zero : roundTo 2 (0 : ℚ) = 0 := by
  rw [roundTo_two_level]
  have : ((0 : ℚ)) * 100 = ((0 : ℤ) : ℚ) := by norm_num
  rw [this, roundHalfEven_intCast]
  norm_num

/-- Bundle of facts about the capped-and-rounded confidences, given the
pre-cap ordering and the lower bound `4/375 = 0.32/30` on the third value. -/
theorem conf_round_bundle {c1 c2 c3 : ℚ} (h21 : c2 ≤ c1) (h32 : c3 ≤ c2)
    (h3 : (4/375 : ℚ) ≤ c3) :
    roundTo 2 (min 0.90 c2) ≤ roundTo 2 (min 0.95 c1)
    ∧ roundTo 2 (min 0.85 c3) ≤ roundTo 2 (min 0.90 c2)
    ∧ 0 < roundTo 2 (min 0.85 c3)
    ∧ roundTo 2 (min 0.95 c1) ≤ 19/20 := by
  have hA : min (0.90 : ℚ) c2 ≤ min (0.95 : ℚ) c1 :=
    le_min (le_trans (min_le_left _ _) (by norm_num))
      (le_trans (min_le_right _ _) h21)
  have hB : min (0.85 : ℚ) c3 ≤ min (0.90 : ℚ) c2 :=
    le_min (le_trans (min_le_left _ _) (by norm_num))
      (le_trans (min_le_right _ _) h32)
  have hC : (4/375 : ℚ) ≤ min (0.85 : ℚ) c3 := le_min (by norm_num) h3
  refine ⟨roundTo_mono 2 hA, roundTo_mono 2 hB, ?_, ?_⟩
  · exact roundTo_two_pos_of_ge (le_trans (by norm_num) hC)
  · exact roundTo_le_of_le (le_trans (min_le_left _ _) (by norm_num))
      roundTo_two_nineteenTwenty

/-- C3 (amended): for every positive current price, strike, volatility and
both option kinds, when `days_to_expiry ≥ 1` the three confidences returned
by `calculate_multiple_targets` satisfy `confidence1 ≥ confidence2 ≥
confidence3` and all lie in `(0, 0.95]`; but at `days_to_expiry = 0` the
time factor `min(1, 0/30) = 0` zeroes all three confidences, so they are
`0`, not strictly positive. -/
theorem calculate_multiple_targets_confidence (sq : ℚ → ℚ)
    (current_price volatility : ℚ) (days_to_expiry : ℤ)
    (option_type : OptionType) (spot_price strike_price : ℚ)
    (hk : strike_price ≠ 0) :
    (1 ≤ days_to_expiry →
      ∃ ts, calculate_multiple_targets sq current_price volatility
          days_to_expiry option_type spot_price strike_price = .ok ts
        ∧ ts.confidence2 ≤ ts.confidence1 ∧ ts.confidence3 ≤ ts.confidence2
        ∧ 0 < ts.confidence3 ∧ ts.confidence1 ≤ 19/20)
    ∧ (days_to_expiry = 0 →
      ∃ ts, calculate_multiple_targets sq current_price volatility
          days_to_expiry option_type spot_price strike_price = .ok ts
        ∧ ts.confidence1 = 0 ∧ ts.confidence2 = 0 ∧ ts.confidence3 = 0) := by
  constructor
  · intro hd
    have htf : (1/30 : ℚ) ≤ min 1 ((days_to_expiry : ℚ) / 30) := by
      apply le_min (by norm_num)
      have : (1 : ℚ) ≤ (days_to_expiry : ℚ) := by exact_mod_cast hd
      linarith
    simp only [calculate_multiple_targets, pydiv, if_neg hk, bind, Except.bind,
      pure, Except.pure]
    refine ⟨_, rfl, ?_⟩
    rcases option_type <;> dsimp only <;> split_ifs <;>
      exact conf_round_bundle (by nlinarith) (by nlinarith) (by nlinarith)
  · intro hd
    subst hd
    simp only [calculate_multiple_targets, pydiv, if_neg hk, bind, Except.bind,
      pure, Except.pure]
    refine ⟨_, rfl, ?_⟩
    rcases option_type <;> dsimp only <;> split_ifs <;>
      norm_num [roundTo_two_zero]

/-- Witness for C3's theorem at a concrete valid input (`d = 365`, CALL). -/
theorem calculate_multiple_targets_confidence_witness :
    ∃ ts, calculate_multiple_targets ratSqrt (7/2) (7/20) 365 OptionType.call
        (371/2) 190 = .ok ts
      ∧ ts.confidence2 ≤ ts.confidence1 ∧ ts.confidence3 ≤ ts.confidence2
      ∧ 0 < ts.confidence3 ∧ ts.confidence1 ≤ 19/20 :=
  (calculate_multiple_targets_confidence ratSqrt (7/2) (7/20) 365 .call
    (371/2) 190 (by norm_num)).1 (by norm_num)

/-- Counterexample to C3 as stated: at `days_to_expiry = 0` (a valid input
the claim says stays strictly positive) all three confidences are `0`,
outside the claimed interval `(0, 0.95]`. -/
theorem targets_zero_confidence_at_zero_days :
    (calculate_multiple_targets ratSqrt (7/2) (7/20) 0 OptionType.call
        (371/2) 190).map
      (fun ts => (ts.confidence1, ts.confidence2, ts.confidence3))
      = .ok (0, 0, 0) := by
  norm_num [calculate_multiple_targets, pydiv, bind, Except.bind, pure,
    Except.pure, Except.map, roundTo_two_zero]

/-! ### C7: ordering of the three price targets -/

theorem ratSqrt_one : ratSqrt 1 = 1 := by
  norm_num [ratSqrt, Rat.num_one, Rat.den_one, isqrt, isqrtAux]

theorem ratSqrt_365_365 : ratSqrt (((365 : ℤ) : ℚ) / 365) = 1 := by
  have h : (((365 : ℤ) : ℚ) / 365) = 1 := by norm_num
  rw [h, ratSqrt_one]

/-- Evaluation rule: when the scaled value falls strictly below the half-way
point, `roundTo 2` gives the floor. -/
theorem roundTo_two_eq_of_lt_half {q : ℚ} {m : ℤ} (hf : ⌊q * 100⌋ = m)
    (hr : q * 100 - (m : ℚ) < 1/2) : roundTo 2 q = (m : ℚ) / 100 := by
  rw [roundTo_two_level]
  unfold roundHalfEven
  rw [hf, if_pos hr]

/-- Evaluation rule: at an exact half-way point with an even floor,
`roundTo 2` gives the floor (banker's rounding). -/
theorem roundTo_two_eq_of_tie_even {q : ℚ} {m : ℤ} (hf : ⌊q * 100⌋ = m)
    (hr : q * 100 - (m : ℚ) = 1/2) (hm : m % 2 = 0) :
    roundTo 2 q = (m : ℚ) / 100 := by
  rw [roundTo_two_level]
  unfold roundHalfEven
  rw [hf, if_neg (by rw [hr]; norm_num), if_neg (by rw [hr]; norm_num),
    if_pos hm]

/-- C7 (amended): for positive option price, volatility and days to expiry
(so the expected move is positive), the three targets are strictly increasing
before the final 2-decimal rounding, and non-decreasing after it; the
counterexample shows strictness can be lost to rounding. -/
theorem calculate_multiple_targets_ordering (sq : ℚ → ℚ)
    (current_price volatility : ℚ) (days_to_expiry : ℤ)
    (option_type : OptionType) (spot_price strike_price : ℚ)
    (hcp : 0 < current_price) (hvol : 0 < volatility)
    (hd : 0 < days_to_expiry)
    (hsq : 0 < sq ((days_to_expiry : ℚ) / 365)) (hk : strike_price ≠ 0) :
    (target1_raw sq current_price volatility days_to_expiry
        < target2_raw sq current_price volatility days_to_expiry
      ∧ target2_raw sq current_price volatility days_to_expiry
        < target3_raw sq current_price volatility days_to_expiry)
    ∧ ∃ ts, calculate_multiple_targets sq current_price volatility
          days_to_expiry option_type spot_price strike_price = .ok ts
        ∧ ts.target1 ≤ ts.target2 ∧ ts.target2 ≤ ts.target3 := by
  have hmove : 0 < current_price * (volatility * sq ((days_to_expiry : ℚ) / 365)) :=
    mul_pos hcp (mul_pos hvol hsq)
  have h12 : target1_raw sq current_price volatility days_to_expiry
      < target2_raw sq current_price volatility days_to_expiry := by
    unfold target1_raw target2_raw days_vol
    nlinarith
  have h23 : target2_raw sq current_price volatility days_to_expiry
      < target3_raw sq current_price volatility days_to_expiry := by
    unfold target2_raw target3_raw days_vol
    nlinarith
  refine ⟨⟨h12, h23⟩, ?_⟩
  simp only [calculate_multiple_targets, pydiv, if_neg hk, bind, Except.bind,
    pure, Except.pure]
  exact ⟨_, rfl, roundTo_mono 2 (le_of_lt h12), roundTo_mono 2 (le_of_lt h23)⟩

/-- Witness for C7's theorem at a concrete input (`d = 365`, where the model
square root is exactly `1`). -/
theorem calculate_multiple_targets_ordering_witness :
    (target1_raw ratSqrt 2 (1/2) 365 < target2_raw ratSqrt 2 (1/2) 365
      ∧ target2_raw ratSqrt 2 (1/2) 365 < target3_raw ratSqrt 2 (1/2) 365)
    ∧ ∃ ts, calculate_multiple_targets ratSqrt 2 (1/2) 365 OptionType.call
          100 100 = .ok ts
        ∧ ts.target1 ≤ ts.target2 ∧ ts.target2 ≤ ts.target3 :=
  calculate_multiple_targets_ordering ratSqrt 2 (1/2) 365 .call 100 100
    (by norm_num) (by norm_num) (by norm_num)
    (by rw [ratSqrt_365_365]; norm_num) (by norm_num)

/-- Counterexample to C7 as stated: for `current_price = 0.01`,
`volatility = 0.001`, `days_to_expiry = 365` the projected moves are smaller
than half a cent, so after the 2-decimal rounding `target1 = target2`
(both `0.01`): the rounded targets are not strictly increasing. -/
theorem targets_equal_after_rounding :
    (calculate_multiple_targets ratSqrt (1/100) (1/1000) 365 OptionType.call
        100 100).map (fun ts => (ts.target1, ts.target2))
      = .ok (1/100, 1/100) := by
  have e1 : roundTo 2 (target1_raw ratSqrt (1/100) (1/1000) 365) = 1/100 := by
    have hv : target1_raw ratSqrt (1/100) (1/1000) 365 = 2001/200000 := by
      unfold target1_raw days_vol
      rw [ratSqrt_365_365]
      norm_num
    rw [hv]
    have := roundTo_two_eq_of_lt_half (q := 2001/200000) (m := 1)
      (by norm_num [Int.floor_eq_iff]) (by norm_num)
    rw [this]
    norm_num
  have e2 : roundTo 2 (target2_raw ratSqrt (1/100) (1/1000) 365) = 1/100 := by
    have hv : target2_raw ratSqrt (1/100) (1/1000) 365 = 4003/400000 := by
      unfold target2_raw days_vol
      rw [ratSqrt_365_365]
      norm_num
    rw [hv]
    have := roundTo_two_eq_of_lt_half (q := 4003/400000) (m := 1)
      (by norm_num [Int.floor_eq_iff]) (by norm_num)
    rw [this]
    norm_num
  simp only [calculate_multiple_targets, pydiv, bind, Except.bind, pure,
    Except.pure, Except.map, e1, e2]
  norm_num

/-! ### C9: `filter_best_opportunities` -/

/-- Confidence-descending order between predictions. -/
def confDesc (a b : OptionPrediction) : Prop :=
  b.overall_confidence ≤ a.overall_confidence

theorem insertByConfDesc_perm (p : OptionPrediction)
    (l : List OptionPrediction) :
    List.Perm (insertByConfDesc p l) (p :: l) := by
  induction l with
  | nil => exact List.Perm.refl _
  | cons q rest ih =>
      unfold insertByConfDesc
      split_ifs with h
      · exact List.Perm.refl _
      · exact (ih.cons q).trans (List.Perm.swap p q rest)

theorem insertByConfDesc_sorted (p : OptionPrediction)
    {l : List OptionPrediction} (hl : l.Pairwise confDesc) :
    (insertByConfDesc p l).Pairwise confDesc := by
  induction l with
  | nil => simp [insertByConfDesc]
  | cons q rest ih =>
      rcases List.pairwise_cons.mp hl with ⟨hq, hrest⟩
      unfold insertByConfDesc
      split_ifs with h
      · refine List.pairwise_cons.mpr ⟨?_, hl⟩
        intro x hx
        rcases List.mem_cons.mp hx with rfl | hx
        · exact h
        · exact le_trans (hq x hx) h
      · refine List.pairwise_cons.mpr ⟨?_, ih hrest⟩
        intro x hx
        have hx' := (insertByConfDesc_perm p rest).mem_iff.mp hx
        rcases List.mem_cons.mp hx' with rfl | hx'
        · exact le_of_lt (lt_of_not_le h)
        · exact hq x hx'

theorem insertByConfDesc_filter_conf (c : ℚ) (p : OptionPrediction)
    (l : List OptionPrediction) :
    (insertByConfDesc p l).filter (fun x => decide (x.overall_confidence = c))
      = if p.overall_confidence = c then
          p :: l.filter (fun x => decide (x.overall_confidence = c))
        else l.filter (fun x => decide (x.overall_confidence = c)) := by
  induction l with
  | nil =>
      by_cases hp : p.overall_confidence = c <;>
        simp [insertByConfDesc, List.filter_cons, hp]
  | cons q rest ih =>
      unfold insertByConfDesc
      split_ifs with h hp hp
      · simp [List.filter_cons, hp]
      · simp [List.filter_cons, hp]
      · have hq : ¬ q.overall_confidence = c := fun hqc =>
          h (le_of_eq (hqc.trans hp.symm))
        simp [List.filter_cons, hq, ih, hp]
      · simp [List.filter_cons, ih, hp]

theorem sortByConfDesc_perm (l : List OptionPrediction) :
    List.Perm (sortByConfDesc l) l := by
  induction l with
  | nil => exact List.Perm.refl _
  | cons p rest ih =>
      exact (insertByConfDesc_perm p (sortByConfDesc rest)).trans (ih.cons p)

theorem sortByConfDesc_sorted (l : List OptionPrediction) :
    (sortByConfDesc l).Pairwise confDesc := by
  induction l with
  | nil => simp [sortByConfDesc]
  | cons p rest ih => exact insertByConfDesc_sorted p ih

theorem sortByConfDesc_filter_conf (c : ℚ) (l : List OptionPrediction) :
    (sortByConfDesc l).filter (fun x => decide (x.overall_confidence = c))
      = l.filter (fun x => decide (x.overall_confidence = c)) := by
  induction l with
  | nil => rfl
  | cons p rest ih =>
      show (insertByConfDesc p (sortByConfDesc rest)).filter _ = _
      rw [insertByConfDesc_filter_conf]
      by_cases hp : p.overall_confidence = c
      · simp [hp, List.filter_cons, ih]
      · simp [hp, List.filter_cons, ih]

/-- The LOW < MEDIUM < HIGH order of the claim, as a rank. -/
def riskRank : Risk → ℕ
  | .low => 0
  | .medium => 1
  | .high => 2

/-- The keep-predicate exactly as the claim words it: recommendation is BUY
or STRONG BUY, overall confidence at least `min_confidence`, and risk tier at
most `max_risk` in the order LOW < MEDIUM < HIGH. -/
def specKeep (min_confidence : ℚ) (max_risk : Risk) (p : OptionPrediction) :
    Bool :=
  decide (p.recommendation = Recommendation.buy
      ∨ p.recommendation = Recommendation.strongBuy)
  && decide (min_confidence ≤ p.overall_confidence)
  && decide (riskRank p.risk_level ≤ riskRank max_risk)

/-- The filter predicate used by the source equals the claim's predicate. -/
theorem filter_pred_eq_specKeep (min_confidence : ℚ) (max_risk : Risk)
    (p : OptionPrediction) :
    (min_confidence ≤ p.overall_confidence
      && risk_levels p.risk_level ≤ risk_levels max_risk
      && [Recommendation.buy, Recommendation.strongBuy].contains
          p.recommendation)
    = specKeep min_confidence max_risk p := by
  by_cases h1 : min_confidence ≤ p.overall_confidence <;>
    rcases hrl : p.risk_level <;> rcases max_risk <;>
      rcases hrec : p.recommendation <;>
        simp [specKeep, risk_levels, riskRank, h1, hrl, hrec]

/-- C9: `filter_best_opportunities` returns exactly the input results whose
recommendation is BUY or STRONG BUY, whose overall confidence is at least
`min_confidence`, and whose risk tier is at most `max_risk` under
LOW < MEDIUM < HIGH (as a permutation of the filtered input); the output is
sorted by confidence descending; and for every confidence value the output
lists the results of that confidence in input order (stability). -/
theorem filter_best_opportunities_spec (predictions : List OptionPrediction)
    (min_confidence : ℚ) (max_risk : Risk) :
    List.Perm (filter_best_opportunities predictions min_confidence max_risk)
      (predictions.filter (specKeep min_confidence max_risk))
    ∧ (filter_best_opportunities predictions min_confidence
        max_risk).Pairwise confDesc
    ∧ ∀ c : ℚ,
      (filter_best_opportunities predictions min_confidence max_risk).filter
          (fun x => decide (x.overall_confidence = c))
        = (predictions.filter (specKeep min_confidence max_risk)).filter
          (fun x => decide (x.overall_confidence = c)) := by
  have hpred : predictions.filter (fun pred =>
      min_confidence ≤ pred.overall_confidence
      && risk_levels pred.risk_level ≤ risk_levels max_risk
      && [Recommendation.buy, Recommendation.strongBuy].contains
          pred.recommendation)
      = predictions.filter (specKeep min_confidence max_risk) :=
    List.filter_congr fun p _ => filter_pred_eq_specKeep min_confidence
      max_risk p
  simp only [filter_best_opportunities]
  rw [hpred]
  exact ⟨sortByConfDesc_perm _, sortByConfDesc_sorted _,
    fun c => sortByConfDesc_filter_conf c _⟩

/-! ### C6: expired contracts and batch behaviour -/

theorem calculate_multiple_targets_not_expired (sq : ℚ → ℚ)
    (current_price volatility : ℚ) (days_to_expiry : ℤ)
    (option_type : OptionType) (spot_price strike_price : ℚ) :
    calculate_multiple_targets sq current_price volatility days_to_expiry
      option_type spot_price strike_price ≠ .error .expired := by
  simp only [calculate_multiple_targets, pydiv, bind, Except.bind, pure,
    Except.pure]
  split_ifs <;> simp

theorem calculate_multiple_targets_isOk (sq : ℚ → ℚ)
    (current_price volatility : ℚ) (days_to_expiry : ℤ)
    (option_type : OptionType) (spot_price strike_price : ℚ)
    (hk : strike_price ≠ 0) :
    ∃ ts, calculate_multiple_targets sq current_price volatility days_to_expiry
      option_type spot_price strike_price = .ok ts := by
  simp only [calculate_multiple_targets, pydiv, if_neg hk, bind, Except.bind,
    pure, Except.pure]
  exact ⟨_, rfl⟩

/-- C6: `predict_option` raises the expired-contract error exactly when the
days-to-expiry computed at the evaluation instant is negative (returning no
partial result), and `batch_predict_options` skips every failing snapshot
while returning the results of all remaining ones, in order. -/
theorem predict_option_expired_iff_and_batch (env : BSEnv) (inp : PredInput)
    (now : ℚ) (options_data : List PredInput) :
    (predict_option env inp now = .error .expired
      ↔ daysToExpiry inp.expiration_date now < 0)
    ∧ batch_predict_options env options_data now
        = options_data.filterMap
            (fun s => (predict_option env s now).toOption) := by
  constructor
  · constructor
    · intro h
      by_contra hd
      simp only [predict_option, bind, Except.bind, pure, Except.pure, throw,
        throwThe, MonadExceptOf.throw, if_neg hd] at h
      rcases hts : calculate_multiple_targets env.sqrt inp.option_price
          inp.implied_volatility (daysToExpiry inp.expiration_date now)
          inp.option_type inp.spot_price inp.strike_price with e | ts
      · rw [hts] at h
        simp only [] at h
        rcases e with _ | _
        · simp at h
        · exact calculate_multiple_targets_not_expired _ _ _ _ _ _ _ hts
      · rw [hts] at h
        simp only [pydiv] at h
        by_cases hk : inp.strike_price = 0
        · simp [hk] at h
        · simp only [if_neg hk] at h
          by_cases hp : inp.option_price = 0
          · simp [hp, pydiv, Functor.map, Except.map] at h
          · simp [pydiv, if_neg hp, Functor.map, Except.map] at h
    · intro hd
      simp [predict_option, if_pos hd, throw, throwThe, MonadExceptOf.throw,
        bind, Except.bind]
  · induction options_data with
    | nil => rfl
    | cons s rest ih =>
        simp only [batch_predict_options, List.filterMap_cons, ih]
        rcases predict_option env s now with e | p <;> simp [Except.toOption]

/-! ### C2: no input validation -/

/-- C2 (amended): the engine performs no validation of `spot_price`,
`strike_price`, `option_price` or `implied_volatility`: whenever the contract
is not expired, the strike is non-zero (so the two moneyness divisions do not
raise `ZeroDivisionError`) and the option price is non-zero (so the
max-profit division does not raise), `predict_option` returns a result — in
particular non-positive spot, negative premium or non-positive implied
volatility are processed, never rejected. -/
theorem predict_option_no_validation (env : BSEnv) (inp : PredInput) (now : ℚ)
    (hk : inp.strike_price ≠ 0) (hp : inp.option_price ≠ 0)
    (hd : 0 ≤ daysToExpiry inp.expiration_date now) :
    (predict_option env inp now).isOk = true := by
  have hd' : ¬ daysToExpiry inp.expiration_date now < 0 := not_lt.mpr hd
  simp only [predict_option, bind, Except.bind, pure, Except.pure, throw,
    throwThe, MonadExceptOf.throw, if_neg hd']
  obtain ⟨ts, hts⟩ := calculate_multiple_targets_isOk env.sqrt inp.option_price
    inp.implied_volatility (daysToExpiry inp.expiration_date now)
    inp.option_type inp.spot_price inp.strike_price hk
  rw [hts]
  simp [pydiv, if_neg hk, if_neg hp, Except.isOk, Except.toBool]

/-- Witness for C2's amended theorem at a concrete unexpired snapshot. -/
theorem predict_option_no_validation_witness :
    (predict_option refBSEnv
      ⟨"AAPL", "Apple Inc", "US", 371/2, 190, 7/2, 365, .call, 7/20,
        5000, 1200⟩ 0).isOk = true :=
  predict_option_no_validation refBSEnv _ 0 (by norm_num) (by norm_num)
    (by norm_num [daysToExpiry, Int.floor_intCast])

/-- Counterexample to C2 as stated: a snapshot with `spot_price = -5 ≤ 0`
(every other field valid) is not rejected: `predict_option` completes and
returns a result, so no `InvalidInputError`-style rejection exists. -/
theorem predict_option_accepts_negative_spot :
    (predict_option refBSEnv
      ⟨"AAPL", "Apple Inc", "US", -5, 190, 7/2, 365, .call, 7/20,
        5000, 1200⟩ 0).isOk = true :=
  predict_option_no_validation refBSEnv _ 0 (by norm_num) (by norm_num)
    (by norm_num [daysToExpiry, Int.floor_intCast])

/-! ### C8: breakeven, max-profit and max-loss -/

/-- C8 (amended): for every successfully analyzed contract the stored
breakeven equals `round2(strike + premium)` for a CALL and
`round2(strike - premium)` for a PUT, the stored max-loss is exactly `-100`,
and the stored max-profit equals `round2((target3 - premium)/premium * 100)`;
the claim's unrounded equalities hold only up to this 2-decimal rounding. -/
theorem predict_option_derived_fields (env : BSEnv) (inp : PredInput)
    (now : ℚ) :
    (predict_option env inp now).map
        (fun p => (p.breakeven_price, p.max_loss_potential))
      = (predict_option env inp now).map (fun p =>
          (roundTo 2 (match inp.option_type with
            | .call => inp.strike_price + inp.option_price
            | .put => inp.strike_price - inp.option_price), (-100 : ℚ)))
    ∧ (predict_option env inp now).map (fun p => p.max_profit_potential)
      = (predict_option env inp now).map (fun p =>
          roundTo 2 ((p.target3 - inp.option_price) / inp.option_price
            * 100)) := by
  by_cases hd : daysToExpiry inp.expiration_date now < 0
  · simp [predict_option, if_pos hd, throw, throwThe, MonadExceptOf.throw,
      bind, Except.bind, Except.map]
  · simp only [predict_option, bind, Except.bind, pure, Except.pure, throw,
      throwThe, MonadExceptOf.throw, if_neg hd]
    rcases hts : calculate_multiple_targets env.sqrt inp.option_price
        inp.implied_volatility (daysToExpiry inp.expiration_date now)
        inp.option_type inp.spot_price inp.strike_price with e | ts
    · simp [Except.map]
    · by_cases hk : inp.strike_price = 0
      · simp [pydiv, hk, Except.map]
      · simp only [pydiv, if_neg hk]
        by_cases hp : inp.option_price = 0
        · simp [pydiv, hp, Except.map, Functor.map]
        · simp [pydiv, if_neg hp, Except.map, Functor.map,
            roundTo_two_neg100]

/-- Counterexample to C8 as stated: with premium `0.005` (call, strike 100)
the stored breakeven is `round2(100.005) = 100`, not
`strike + premium = 100.005`. -/
theorem predict_breakeven_is_rounded :
    (predict_option refBSEnv ⟨"X", "X", "US", 100, 100, 1/200, 365,
        .call, 7/20, 5000, 1200⟩ 0).map (fun p => p.breakeven_price)
      = .ok 100
    ∧ (100 : ℚ) ≠ 100 + 1/200 := by
  have hb : roundTo 2 ((20001 : ℚ) / 200) = 100 := by
    have h := roundTo_two_eq_of_tie_even (q := (20001 : ℚ) / 200) (m := 10000)
      (by norm_num [Int.floor_eq_iff]) (by norm_num) (by decide)
    rw [h]; norm_num
  have d1 : daysToExpiry 365 0 = 365 := by
    norm_num [daysToExpiry, Int.floor_eq_iff]
  refine ⟨?_, by norm_num⟩
  norm_num [predict_option, calculate_multiple_targets, pydiv, bind,
    Except.bind, pure, Except.pure, throw, throwThe, MonadExceptOf.throw,
    Except.map, Functor.map, d1, hb]

/-! ### C1: the evaluation instant is read internally -/

/-- `p` with its timestamp field cleared, for comparing results up to the
recorded reading instant. -/
def stripTimestamp (p : OptionPrediction) : OptionPrediction :=
  { p with timestamp := 0 }

/-- C1 (amended): `predict_option` is deterministic given the internally-read
instant `now`, and two calls whose instants give the same `days_to_expiry`
agree on every field except the timestamp (which records the instant
`datetime.now()` was read, and so differs between calls). -/
theorem predict_option_depends_only_on_days (env : BSEnv) (inp : PredInput)
    (n1 n2 : ℚ)
    (h : daysToExpiry inp.expiration_date n1
      = daysToExpiry inp.expiration_date n2) :
    (predict_option env inp n1).map stripTimestamp
      = (predict_option env inp n2).map stripTimestamp := by
  simp only [predict_option]
  rw [h]
  by_cases hd : daysToExpiry inp.expiration_date n2 < 0
  · simp [if_pos hd, throw, throwThe, MonadExceptOf.throw, bind, Except.bind,
      Except.map]
  · simp only [bind, Except.bind, pure, Except.pure, throw, throwThe,
      MonadExceptOf.throw, if_neg hd]
    rcases hts : calculate_multiple_targets env.sqrt inp.option_price
        inp.implied_volatility (daysToExpiry inp.expiration_date n2)
        inp.option_type inp.spot_price inp.strike_price with e | ts
    · simp [Except.map]
    · by_cases hk : inp.strike_price = 0
      · simp [pydiv, hk, Except.map]
      · simp only [pydiv, if_neg hk]
        by_cases hp : inp.option_price = 0
        · simp [pydiv, hp, Except.map, Functor.map]
        · simp [pydiv, if_neg hp, Except.map, Functor.map, stripTimestamp]

/-- Witness for C1's amended theorem: two distinct instants within the same
day (`1/4` and `1/2` of a day) give results equal up to the timestamp. -/
theorem predict_option_depends_only_on_days_witness :
    (predict_option refBSEnv ⟨"AAPL", "Apple Inc", "US", 371/2, 190, 7/2,
        365, .call, 7/20, 5000, 1200⟩ (1/4)).map stripTimestamp
      = (predict_option refBSEnv ⟨"AAPL", "Apple Inc", "US", 371/2, 190, 7/2,
        365, .call, 7/20, 5000, 1200⟩ (1/2)).map stripTimestamp :=
  predict_option_depends_only_on_days refBSEnv _ (1/4) (1/2) (by
    have h1 : daysToExpiry 365 (1/4) = 364 := by
      norm_num [daysToExpiry, Int.floor_eq_iff]
    have h2 : daysToExpiry 365 (1/2) = 364 := by
      norm_num [daysToExpiry, Int.floor_eq_iff]
    rw [h1, h2])

/-- Counterexample to C1 as stated: the engine does read the clock
internally — calling `predict_option` on the same snapshot at two different
internal instants returns different results (`days_to_expiry` is `365`
vs `364`), so the output is not a function of the explicit arguments alone. -/
theorem predict_option_reads_clock :
    predict_option refBSEnv ⟨"AAPL", "Apple Inc", "US", 371/2, 190, 7/2, 365,
        .call, 7/20, 5000, 1200⟩ 0
      ≠ predict_option refBSEnv ⟨"AAPL", "Apple Inc", "US", 371/2, 190, 7/2,
        365, .call, 7/20, 5000, 1200⟩ 1 := by
  intro hcontra
  have h := congrArg (Except.map (fun p => p.days_to_expiry)) hcontra
  have d1 : daysToExpiry 365 0 = 365 := by
    norm_num [daysToExpiry, Int.floor_eq_iff]
  have d2 : daysToExpiry 365 1 = 364 := by
    norm_num [daysToExpiry, Int.floor_eq_iff]
  norm_num [predict_option, calculate_multiple_targets, pydiv, bind,
    Except.bind, pure, Except.pure, throw, throwThe, MonadExceptOf.throw,
    Except.map, Functor.map, d1, d2] at h
